import Mathlib

/-!
Verification of the voice-bot pipeline program (src/bot.py) against its
natural-language specification.

The repository's own code is the `run_bot` function: it fixes the ordered
stage list of the pipeline, the pipeline-task parameters, the initial
conversation messages, and the two transport event handlers
(`on_client_connected`, `on_client_disconnected`).  Those parts are embedded
below directly from the source.  The pipeline engine itself (frame routing,
sequence stamping, cancellation, context aggregation, observers) lives in an
external framework and is not part of the repository's files; where a claim
is about engine behaviour, the engine is modelled from the specification's
words, and each such definition says so in its doc comment.
-/

namespace VoiceBot

/-- The kinds of pipeline stages assembled in `run_bot` (src/bot.py lines
122-133): transport input, the RTVI processor, speech-to-text, the user
context aggregator, the language model, text-to-speech, transport output and
the assistant context aggregator. -/
inductive StageKind where
  | transportInput
  | rtvi
  | stt
  | userAggregator
  | llm
  | tts
  | transportOutput
  | assistantAggregator
deriving DecidableEq, Repr

/-- The ordered stage list passed to `Pipeline([...])` in src/bot.py lines
122-133, in the exact textual order of the source. -/
def pipeline : List StageKind :=
  [StageKind.transportInput,
   StageKind.rtvi,
   StageKind.stt,
   StageKind.userAggregator,
   StageKind.llm,
   StageKind.tts,
   StageKind.transportOutput,
   StageKind.assistantAggregator]

/-- The data-flow order as the specification words it (spec section 2):
transport-input, speech-to-text, user context aggregator, language model,
text-to-speech, transport-output, then the assistant context aggregator on
the spoken-output path.  This definition follows the spec's sentence, to be
compared with `pipeline`, which follows the source. -/
def specDataFlowOrder : List StageKind :=
  [StageKind.transportInput,
   StageKind.stt,
   StageKind.userAggregator,
   StageKind.llm,
   StageKind.tts,
   StageKind.transportOutput,
   StageKind.assistantAggregator]

/-- The frame variants of the data model (spec section 3): audio chunks,
partial and final transcripts, context updates, control signals and errors.
The engine's frame types are framework code; this follows the spec's tagged
variant. -/
inductive FrameKind where
  | audio (pcm : List Nat) (sampleRate : Nat) (channel : Nat)
  | transcriptPartial (text : String)
  | transcriptFinal (text : String)
  | contextUpdate (role : String) (content : String)
  | controlStart
  | controlCancel
  | controlEndOfTurn
  | error (detail : String)
deriving DecidableEq, Repr

/-- Modelled from the spec: a stage consumes each frame and produces zero or
more output frames (spec section 4.1); applying one stage to a frame stream
maps its processing function over the stream in arrival order. -/
def procStage (procs : StageKind → FrameKind → List FrameKind)
    (st : StageKind) (fs : List FrameKind) : List FrameKind :=
  fs.flatMap (procs st)

/-- Modelled from the spec: the pipeline moves frames stage-to-stage in the
order of its stage list (spec section 4.2), each stage receiving the whole
output stream of the previous one. -/
def runPipeline (procs : StageKind → FrameKind → List FrameKind)
    (p : List StageKind) (inputs : List FrameKind) : List FrameKind :=
  p.foldl (fun fs st => procStage procs st fs) inputs

/-- C1: the pipeline assembled in src/bot.py is an ordered chain; every frame
stream entering it traverses transport-input, then speech-to-text, then the
user context aggregator, then the language model, then text-to-speech, then
transport-output, then the assistant context aggregator, in exactly this
relative order (with the RTVI processor additionally interposed after
transport-input, cf. the stage list): the named stages of the spec's
data-flow sentence form a subsequence of the pipeline in exactly the spec's
order, and running the pipeline applies the stages in list order. -/
theorem pipeline_stage_order (procs : StageKind → FrameKind → List FrameKind)
    (inputs : List FrameKind) :
    runPipeline procs pipeline inputs =
      procStage procs StageKind.assistantAggregator
        (procStage procs StageKind.transportOutput
          (procStage procs StageKind.tts
            (procStage procs StageKind.llm
              (procStage procs StageKind.userAggregator
                (procStage procs StageKind.stt
                  (procStage procs StageKind.rtvi
                    (procStage procs StageKind.transportInput inputs)))))))
    ∧ List.Sublist specDataFlowOrder pipeline
    ∧ pipeline.filter (fun s => specDataFlowOrder.contains s) = specDataFlowOrder := by
  refine ⟨?_, ?_, ?_⟩
  · simp only [runPipeline, pipeline, List.foldl]
  · decide
  · decide

/-- The observers registered on the pipeline task: src/bot.py line 143 passes
`observers=[RTVIObserver(rtvi)]`, an RTVI observer wrapping the inline RTVI
processor stage. -/
inductive Observer where
  | rtviObserver (target : StageKind)
deriving DecidableEq, Repr

/-- The observer list of the pipeline task in src/bot.py line 143. -/
def observers : List Observer := [Observer.rtviObserver StageKind.rtvi]

/-- C10: the RTVI processor is an inline pipeline stage in the second
position, between transport-input and speech-to-text, so frames emitted by
transport-input pass through it before reaching speech-to-text; and the
RTVI observer wrapping that same stage is separately registered as a side
observer of the task. -/
theorem rtvi_second_stage (procs : StageKind → FrameKind → List FrameKind)
    (inputs : List FrameKind) :
    pipeline.take 3 = [StageKind.transportInput, StageKind.rtvi, StageKind.stt]
    ∧ runPipeline procs (pipeline.take 3) inputs =
        procStage procs StageKind.stt
          (procStage procs StageKind.rtvi
            (procStage procs StageKind.transportInput inputs))
    ∧ observers = [Observer.rtviObserver StageKind.rtvi] := by
  refine ⟨rfl, ?_, rfl⟩
  simp only [runPipeline, pipeline, List.take, List.foldl]

/-- A role/content record of the conversation context, as the entries of the
`messages` list in src/bot.py are shaped. -/
structure Message where
  role : String
  content : String
deriving DecidableEq, Repr

/-- The order-taking script: the content of the single system message the
source places in `messages` (src/bot.py lines 63-115), transcribed
verbatim. -/
def orderScript : String := "You are a professional AI takeaway assistant for \"My Takeaway\".

Your job is to take food orders in a warm, friendly, and confident tone.

You follow this script:

1. Ask: “Hi, welcome to My Takeaway. Are you calling for collection or delivery?”

2. If collection:
   - Ask for the customer’s name.
   - Confirm the caller number as contact.
   - Ask what they’d like to order.

3. If delivery:
   - Ask for their name.
   - Ask for delivery address and postcode, confirm back.
   - Confirm caller number.
   - Ask what they’d like to order.

4. For each item:
   - If pizza, confirm size.
   - Ask “Is that on its own or as a meal?”
   - If meal:
     - Offer to go large on fries for 65p extra.
     - Ask for drinks (amount depends on pizza size or 1 for wrap/burger).
   - Confirm each item clearly.

5. Always say “Next item?” after confirming an item.

6. Loop until customer says “That’s all” or “No more.”

7. Confirm full order. Say:
   - “Here’s what I’ve got: [list items]”
   - “Your total is £XX.XX”

8. If collection:
   - “Perfect! Your order will be ready in about 15 minutes. Thank you for choosing My Takeaway. Goodbye!” (hang up immediately)

9. If delivery:
   - “Perfect! Your order will be delivered in about 30–40 minutes. Thank you for choosing My Takeaway. Goodbye!” (hang up immediately)

✅ Skip questions that were already answered (e.g. size or meal).
✅ Don’t repeat customer phrasing.
✅ No long pauses or delays.
✅ End the call right after total — no extra questions.

Your tone is friendly, brief, and efficient.
"

/-- The initial `messages` list of src/bot.py lines 63-115: exactly one
system-role message, the order-taking script. -/
def messages : List Message := [{ role := "system", content := orderScript }]

/-- The directive appended by `on_client_connected` (src/bot.py line 150). -/
def greetingDirective : Message :=
  { role := "system", content := "Say hello and briefly introduce yourself." }

/-- A frame queued into the pipeline task via `task.queue_frames`.  The
user aggregator's `get_context_frame()` yields a context frame carrying the
context's message list; the context holds the `messages` list by reference
(spec section 3: shared by reference), so the frame reflects the list's
state at queueing time. -/
inductive QueuedFrame where
  | contextFrame (msgs : List Message)
deriving DecidableEq, Repr

/-- The state the connect handler touches: the shared `messages` list
referenced by the `OpenAILLMContext`, and the queue of frames handed to the
pipeline task. -/
structure TaskState where
  messages : List Message
  queued : List QueuedFrame
deriving DecidableEq, Repr

/-- The state of `run_bot` when the transport connects: the `messages` list
as initialised on lines 63-115 and an empty task queue. -/
def initialTaskState : TaskState :=
  { messages := messages, queued := [] }

/-- The `on_client_connected` handler of src/bot.py lines 146-151: it
appends the greeting directive to the shared `messages` list and then
queues the user aggregator's context frame, which carries the updated
list. -/
def on_client_connected (s : TaskState) : TaskState :=
  let msgs := s.messages ++ [greetingDirective]
  { messages := msgs, queued := s.queued ++ [QueuedFrame.contextFrame msgs] }

/-- C2: on the transport's client-connected event, the handler appends a
system-role directive telling the bot to introduce itself to the
conversation context and queues a synthetic context frame into the
pipeline; no user-input frame is involved, so the first language-model turn
is kicked off by the context frame alone. -/
theorem connect_seeds_context (s : TaskState) :
    (on_client_connected s).messages = s.messages ++ [greetingDirective]
    ∧ greetingDirective.role = "system"
    ∧ greetingDirective.content = "Say hello and briefly introduce yourself."
    ∧ (on_client_connected s).queued =
        s.queued ++ [QueuedFrame.contextFrame (s.messages ++ [greetingDirective])] :=
  ⟨rfl, rfl, rfl, rfl⟩

/-- C9: after the client-connected event on the initial state and before
any user turn, the context's message list holds exactly two messages, both
system-role — the order-taking script and then the greeting directive — and
the context frame queued immediately after the append carries both, with no
explicit context-update call in between. -/
theorem context_holds_two_system_messages :
    (on_client_connected initialTaskState).messages =
      [{ role := "system", content := orderScript }, greetingDirective]
    ∧ (on_client_connected initialTaskState).messages.map Message.role =
        ["system", "system"]
    ∧ (on_client_connected initialTaskState).queued =
        [QueuedFrame.contextFrame (on_client_connected initialTaskState).messages] :=
  ⟨rfl, rfl, rfl⟩

/-- The parameter record the source passes to `PipelineParams` in
src/bot.py lines 137-142: audio in/out sample rates, the metrics flag and
the usage-metrics flag. -/
structure PipelineParams where
  audio_in_sample_rate : Nat
  audio_out_sample_rate : Nat
  enable_metrics : Bool
  enable_usage_metrics : Bool
deriving DecidableEq, Repr

/-- The parameter values of src/bot.py lines 137-142. -/
def botParams : PipelineParams :=
  { audio_in_sample_rate := 8000,
    audio_out_sample_rate := 8000,
    enable_metrics := true,
    enable_usage_metrics := true }

/-- The pipeline setup one session builds (src/bot.py lines 122-144): the
ordered stage list, the task parameters and the system-directive
conversation seed. -/
structure PipelineSetup where
  stages : List StageKind
  params : PipelineParams
  seed : String
deriving DecidableEq, Repr

/-- The setup of src/bot.py: the eight-stage pipeline, the parameters of
lines 137-142 and the order-taking script as seed. -/
def botSetup : PipelineSetup :=
  { stages := pipeline, params := botParams, seed := orderScript }

/-- The configuration surface exactly as the spec words it (section 6):
audio in/out sample rates, the `enable_metrics` flag, the seed text and the
ordered stage list.  This follows the spec's sentence, to be compared with
the source's parameters, which also carry `enable_usage_metrics`. -/
structure SpecConfigSurface where
  audio_in_sample_rate : Nat
  audio_out_sample_rate : Nat
  enable_metrics : Bool
  seed : String
  stages : List StageKind
deriving DecidableEq, Repr

/-- The projection of a pipeline setup onto the spec's claimed
configuration surface. -/
def specSurfaceOf (s : PipelineSetup) : SpecConfigSurface :=
  { audio_in_sample_rate := s.params.audio_in_sample_rate,
    audio_out_sample_rate := s.params.audio_out_sample_rate,
    enable_metrics := s.params.enable_metrics,
    seed := s.seed,
    stages := s.stages }

/-- The bot's setup with only `enable_usage_metrics` flipped, used to show
the claimed surface does not determine the setup. -/
def botSetupNoUsage : PipelineSetup :=
  { stages := pipeline,
    params := { audio_in_sample_rate := 8000,
                audio_out_sample_rate := 8000,
                enable_metrics := true,
                enable_usage_metrics := false },
    seed := orderScript }

/-- C8 counterexample: two pipeline setups agree on every parameter the
claim lists — sample rates, `enable_metrics`, seed text and stage list —
yet differ, because the source also passes `enable_usage_metrics` to the
pipeline task; so the listed parameters do not fully determine the
setup. -/
theorem claimed_surface_not_determining :
    specSurfaceOf botSetupNoUsage = specSurfaceOf botSetup
    ∧ botSetupNoUsage ≠ botSetup := by
  constructor
  · rfl
  · intro h
    have hb := congrArg (fun s => s.params.enable_usage_metrics) h
    simp [botSetupNoUsage, botSetup, botParams] at hb

/-- The configuration surface amended with the `enable_usage_metrics` flag
the source also passes. -/
structure AmendedConfigSurface where
  audio_in_sample_rate : Nat
  audio_out_sample_rate : Nat
  enable_metrics : Bool
  enable_usage_metrics : Bool
  seed : String
  stages : List StageKind
deriving DecidableEq, Repr

/-- The projection of a pipeline setup onto the amended configuration
surface. -/
def amendedSurfaceOf (s : PipelineSetup) : AmendedConfigSurface :=
  { audio_in_sample_rate := s.params.audio_in_sample_rate,
    audio_out_sample_rate := s.params.audio_out_sample_rate,
    enable_metrics := s.params.enable_metrics,
    enable_usage_metrics := s.params.enable_usage_metrics,
    seed := s.seed,
    stages := s.stages }

/-- C8 (amended): the configuration surface consists of the audio in/out
sample rates, the `enable_metrics` boolean, the `enable_usage_metrics`
boolean, the system-directive seed text and the ordered stage list; these
parameters fully determine the pipeline setup, and the bot's setup carries
the source's values (8000 Hz in and out, both flags true, the order script
and the eight-stage list). -/
theorem config_surface_determines_setup :
    (∀ s1 s2 : PipelineSetup, amendedSurfaceOf s1 = amendedSurfaceOf s2 → s1 = s2)
    ∧ amendedSurfaceOf botSetup =
        { audio_in_sample_rate := 8000,
          audio_out_sample_rate := 8000,
          enable_metrics := true,
          enable_usage_metrics := true,
          seed := orderScript,
          stages := pipeline } := by
  constructor
  · intro s1 s2 h
    obtain ⟨st1, ⟨a1, b1, c1, d1⟩, sd1⟩ := s1
    obtain ⟨st2, ⟨a2, b2, c2, d2⟩, sd2⟩ := s2
    simp only [amendedSurfaceOf, AmendedConfigSurface.mk.injEq] at h
    simp_all
  · rfl

/-- Witness for the amended configuration-surface theorem at the bot's own
setup. -/
theorem config_surface_determines_setup_witness : botSetup = botSetup :=
  config_surface_determines_setup.1 botSetup botSetup rfl

/-- The session lifecycle phases of the controller state machine (spec
section 4.4). -/
inductive SessionPhase where
  | idle
  | connected
  | active
  | disconnecting
  | closed
deriving DecidableEq, Repr

/-- Modelled from the spec: one call's session state — lifecycle phase,
the canceled flag and the conversation context (spec section 3,
Session). -/
structure Session where
  phase : SessionPhase
  canceled : Bool
  context : List Message
deriving DecidableEq, Repr

/-- Modelled from the spec: the framework's `task.cancel()` as the spec
describes session-level cancellation (sections 4.4 and 5) — it drives the
session to the terminal Closed state and marks it canceled, leaving the
conversation context as it was. -/
def taskCancel (s : Session) : Session :=
  { s with phase := SessionPhase.closed, canceled := true }

/-- The transport and pipeline events the session controller reacts to
(spec section 4.4). -/
inductive SessionEvent where
  | clientConnected
  | transcriptFinal (text : String)
  | clientDisconnected
  | fatalError (detail : String)
deriving DecidableEq, Repr

/-- Modelled from the spec: the controller state machine of section 4.4,
with Closed terminal — it accepts no further events.  The
client-disconnected branch is the `on_client_disconnected` handler of
src/bot.py lines 153-156, whose body performs exactly one action,
`await task.cancel()`, with no condition and no retry. -/
def sessionStep (s : Session) (e : SessionEvent) : Session :=
  if s.phase = SessionPhase.closed then s
  else
    match e with
    | SessionEvent.clientConnected => { s with phase := SessionPhase.connected }
    | SessionEvent.transcriptFinal _ => { s with phase := SessionPhase.active }
    | SessionEvent.clientDisconnected => taskCancel s
    | SessionEvent.fatalError _ => taskCancel s

/-- The `on_client_disconnected` handler of src/bot.py lines 153-156: it
unconditionally cancels the pipeline task. -/
def on_client_disconnected (s : Session) : Session := taskCancel s

/-- A sample in-call session used to witness the disconnect theorem. -/
def sampleSession : Session :=
  { phase := SessionPhase.active, canceled := false, context := [] }

/-- C3: on the transport's client-disconnected event the controller always
issues a cancellation of the pipeline task — the handler's effect is
exactly `task.cancel()` — driving the session to the terminal Closed state;
Closed absorbs every further event, so the disconnect is terminal and never
retried. -/
theorem disconnect_always_cancels (s : Session)
    (h : s.phase ≠ SessionPhase.closed) :
    sessionStep s SessionEvent.clientDisconnected = on_client_disconnected s
    ∧ (sessionStep s SessionEvent.clientDisconnected).phase = SessionPhase.closed
    ∧ (sessionStep s SessionEvent.clientDisconnected).canceled = true
    ∧ ∀ e, sessionStep (sessionStep s SessionEvent.clientDisconnected) e =
        sessionStep s SessionEvent.clientDisconnected := by
  have hstep : sessionStep s SessionEvent.clientDisconnected = taskCancel s := by
    simp only [sessionStep, if_neg h]
  refine ⟨hstep, ?_, ?_, ?_⟩
  · rw [hstep]
    rfl
  · rw [hstep]
    rfl
  · intro e
    rw [hstep]
    simp [sessionStep, taskCancel]

/-- Witness for the disconnect theorem at a concrete active session. -/
theorem disconnect_always_cancels_witness :
    sampleSession.phase ≠ SessionPhase.closed
    ∧ (sessionStep sampleSession SessionEvent.clientDisconnected =
          on_client_disconnected sampleSession
        ∧ (sessionStep sampleSession SessionEvent.clientDisconnected).phase =
            SessionPhase.closed
        ∧ (sessionStep sampleSession SessionEvent.clientDisconnected).canceled = true
        ∧ ∀ e, sessionStep (sessionStep sampleSession SessionEvent.clientDisconnected) e =
            sessionStep sampleSession SessionEvent.clientDisconnected) :=
  ⟨by decide, disconnect_always_cancels sampleSession (by decide)⟩

/-- C6: session-level cancellation is idempotent — cancelling an already
cancelled session changes nothing, and a disconnect event arriving after
the session is already cancelled (a second `task.cancel()`) is a no-op,
leaving the state exactly as the first cancellation left it. -/
theorem cancel_idempotent (s : Session) :
    taskCancel (taskCancel s) = taskCancel s
    ∧ sessionStep (taskCancel s) SessionEvent.clientDisconnected = taskCancel s := by
  refine ⟨rfl, ?_⟩
  simp [sessionStep, taskCancel]

/-- Modelled from the spec: the events the assistant context aggregator
reacts to — streamed response text, completion of the full synthesized
output of one response, and the controller's cancellation of the in-flight
turn when a barge-in occurs (spec sections 4.3 and 7). -/
inductive AsstEvent where
  | textChunk (t : String)
  | completion
  | interruption
deriving DecidableEq, Repr

/-- Modelled from the spec: the assistant aggregator's state — the
conversation context it appends to, and the in-flight (not yet completed)
response text, if any. -/
structure AsstAggState where
  context : List Message
  pending : Option String
deriving DecidableEq, Repr

/-- Modelled from the spec: the assistant context aggregator (section 4.3).
Streamed text accumulates in the in-flight turn; on completion of the full
synthesized output the turn is appended to the context as an assistant
message; on barge-in the controller cancels the in-flight turn and the
accumulated incomplete text is discarded, never appended. -/
def asstStep (s : AsstAggState) (e : AsstEvent) : AsstAggState :=
  match e with
  | AsstEvent.textChunk t => { s with pending := some (s.pending.getD "" ++ t) }
  | AsstEvent.completion =>
      match s.pending with
      | some c =>
          { context := s.context ++ [{ role := "assistant", content := c }],
            pending := none }
      | none => s
  | AsstEvent.interruption => { s with pending := none }

/-- C4: on a barge-in the in-flight assistant turn is cancelled and its
incomplete content is not appended to the conversation context; and in
general the aggregator only ever appends on a completion event, appending
the fully accumulated turn — so only fully completed assistant turns are
recorded. -/
theorem barge_in_discards_pending (s : AsstAggState) :
    (asstStep s AsstEvent.interruption).context = s.context
    ∧ (asstStep s AsstEvent.interruption).pending = none
    ∧ ∀ e, (asstStep s e).context = s.context
        ∨ ∃ c, e = AsstEvent.completion ∧ s.pending = some c
            ∧ (asstStep s e).context =
                s.context ++ [{ role := "assistant", content := c }] := by
  refine ⟨rfl, rfl, ?_⟩
  intro e
  cases e with
  | textChunk t => exact Or.inl rfl
  | completion =>
      cases hp : s.pending with
      | none => exact Or.inl (by simp [asstStep, hp])
      | some c => exact Or.inr ⟨c, rfl, rfl, by simp [asstStep, hp]⟩
  | interruption => exact Or.inl rfl

/-- A stamped frame: its payload, its sequence identifier and the
identifier of its originating stream (spec section 3). -/
structure Frame where
  kind : FrameKind
  seqId : Nat
  streamId : Nat
deriving DecidableEq, Repr

/-- Modelled from the spec: frames emitted into one originating stream are
stamped with consecutive, monotonically increasing sequence identifiers
(the invariant of spec section 3). -/
def stampFrames (sid : Nat) : Nat → List FrameKind → List Frame
  | _, [] => []
  | n, k :: ks =>
      { kind := k, seqId := n, streamId := sid } :: stampFrames sid (n + 1) ks

/-- Modelled from the spec: running one stage over an input sequence — each
input frame is processed in arrival order (section 4.1) and the outputs are
stamped into the stage's originating output stream starting from the
stream's next sequence identifier. -/
def runStage (proc : FrameKind → List FrameKind) (sid next : Nat)
    (inputs : List FrameKind) : List Frame :=
  stampFrames sid next (inputs.flatMap proc)

theorem stampFrames_seqId_chain (sid : Nat) (ks : List FrameKind) :
    ∀ n, List.Chain' (fun a b : Frame => a.seqId < b.seqId) (stampFrames sid n ks) := by
  induction ks with
  | nil => intro n; exact List.chain'_nil
  | cons k ks ih =>
      intro n
      cases ks with
      | nil => simp [stampFrames]
      | cons k2 ks2 =>
          rw [stampFrames, stampFrames, List.chain'_cons]
          exact ⟨Nat.lt_succ_self n, by rw [← stampFrames]; exact ih (n + 1)⟩

theorem stampFrames_streamId (sid : Nat) (ks : List FrameKind) :
    ∀ n, ∀ f ∈ stampFrames sid n ks, f.streamId = sid := by
  induction ks with
  | nil => intro n f hf; simp [stampFrames] at hf
  | cons k ks ih =>
      intro n f hf
      rw [stampFrames] at hf
      rcases List.mem_cons.mp hf with h | h
      · rw [h]
      · exact ih (n + 1) f h

/-- C5: for every input sequence fed to a stage, the output frames carry
strictly increasing sequence identifiers, all within the stage's one
originating stream — so frame order within a stream is preserved across the
stage boundary. -/
theorem stage_output_seq_increasing (proc : FrameKind → List FrameKind)
    (sid next : Nat) (inputs : List FrameKind) :
    List.Chain' (fun a b : Frame => a.seqId < b.seqId)
      (runStage proc sid next inputs)
    ∧ ∀ f ∈ runStage proc sid next inputs, f.streamId = sid :=
  ⟨stampFrames_seqId_chain sid (inputs.flatMap proc) next,
   stampFrames_streamId sid (inputs.flatMap proc) next⟩

/-- Modelled from the spec: running the pipeline with an observer tapped on
(section 4.5) — the observer is handed each frame a stage emits and turns
it into its own telemetry records, while the frames themselves move to the
next stage. -/
def runPipelineObserved (procs : StageKind → FrameKind → List FrameKind)
    (obs : FrameKind → List String) :
    List StageKind → List FrameKind → List String → List FrameKind × List String
  | [], fs, log => (fs, log)
  | st :: rest, fs, log =>
      runPipelineObserved procs obs rest (procStage procs st fs)
        (log ++ (procStage procs st fs).flatMap obs)

/-- Modelled from the spec: the telemetry the observer produces from every
frame emitted along the pipeline, stage by stage. -/
def observedLog (procs : StageKind → FrameKind → List FrameKind)
    (obs : FrameKind → List String) :
    List StageKind → List FrameKind → List String
  | [], _ => []
  | st :: rest, fs =>
      (procStage procs st fs).flatMap obs
        ++ observedLog procs obs rest (procStage procs st fs)

/-- C7: the observer is a read-only tap — the main pipeline output is
exactly the output of the unobserved run, whatever the observer does (so it
mutates no frame and its consumption never alters stage-to-stage delivery),
and the observer is handed every frame emitted along the pipeline. -/
theorem observer_read_only_tap (procs : StageKind → FrameKind → List FrameKind)
    (obs : FrameKind → List String) :
    ∀ (p : List StageKind) (fs : List FrameKind) (log : List String),
      (runPipelineObserved procs obs p fs log).fst = runPipeline procs p fs
      ∧ (runPipelineObserved procs obs p fs log).snd =
          log ++ observedLog procs obs p fs := by
  intro p
  induction p with
  | nil =>
      intro fs log
      exact ⟨rfl, by simp [runPipelineObserved, observedLog]⟩
  | cons st rest ih =>
      intro fs log
      refine ⟨(ih _ _).1, ?_⟩
      have h2 := (ih (procStage procs st fs)
        (log ++ (procStage procs st fs).flatMap obs)).2
      simp only [runPipelineObserved, observedLog] at h2 ⊢
      rw [h2, List.append_assoc]

end VoiceBot
